import Mathlib

/-!
Verification development for the screen-space contact-shadow pass.

The embedded code is the compute shader `Main_CS` (HLSL) together with the
host-side dispatch logic of `FSceneRenderer::RenderScreenSpaceShadows` (C++).
Shader floats are modelled as exact rationals (the claims under study are
control-flow and algebraic properties, not rounding properties); engine
library functions that are not part of the repository (`ConvertToDeviceZ`,
`InterleavedGradientNoise`, `GetTanHalfFieldOfView`, `normalize`) are
abstract fields of the shader environment.  UAV writes are recorded as an
ordered trace.
-/

namespace ScreenSpaceShadows

/-- HLSL `float2`, with exact rational components. -/
structure Float2 where
  x : ℚ
  y : ℚ
deriving DecidableEq, Repr

/-- HLSL `float3`. -/
structure Float3 where
  x : ℚ
  y : ℚ
  z : ℚ
deriving DecidableEq, Repr

/-- HLSL `float4`. -/
structure Float4 where
  x : ℚ
  y : ℚ
  z : ℚ
  w : ℚ
deriving DecidableEq, Repr

/-- A 4x4 matrix, stored as four rows. -/
structure Mat4 where
  r0 : Float4
  r1 : Float4
  r2 : Float4
  r3 : Float4
deriving DecidableEq, Repr

/-- HLSL `mul(v, M)` with `v` a row vector: component `j` of the result is
`sum_i v_i * M[i][j]`. -/
def mulVM (v : Float4) (m : Mat4) : Float4 :=
  ⟨v.x * m.r0.x + v.y * m.r1.x + v.z * m.r2.x + v.w * m.r3.x,
   v.x * m.r0.y + v.y * m.r1.y + v.z * m.r2.y + v.w * m.r3.y,
   v.x * m.r0.z + v.y * m.r1.z + v.z * m.r2.z + v.w * m.r3.z,
   v.x * m.r0.w + v.y * m.r1.w + v.z * m.r2.w + v.w * m.r3.w⟩

/-- Componentwise `float4` addition. -/
def addF4 (a b : Float4) : Float4 := ⟨a.x + b.x, a.y + b.y, a.z + b.z, a.w + b.w⟩

/-- Source: `dot` on `float3`. -/
def dot3 (a b : Float3) : ℚ := a.x * b.x + a.y * b.y + a.z * b.z

/-- HLSL `abs` on a scalar.  (Defined by the sign test so that concrete
instances evaluate inside the kernel; `ratAbs_eq_abs` below identifies it
with `|.|`.) -/
def ratAbs (q : ℚ) : ℚ := if q < 0 then -q else q

/-- The GBuffer fields the shader reads (`GetGBufferDataFromSceneTextures`). -/
structure FGBufferData where
  WorldNormal : Float3
  Depth : ℚ
deriving DecidableEq, Repr

/-- The fields of the `View` uniform buffer that `Main_CS` reads. -/
structure ViewState where
  BufferSizeAndInvSize : Float4
  ViewRectMin : Float2
  ScreenPositionScaleBias : Float4
  ScreenToTranslatedWorld : Mat4
  TranslatedWorldToClip : Mat4
  ViewToClip : Mat4
  TranslatedWorldCameraOrigin : Float3
  StateFrameIndexMod8 : ℕ

/-- Everything an invocation of `Main_CS` reads: the `View` uniforms, the
shader parameter `LightPositionOrDirection`, the (read-only) scene textures,
and the engine library functions the shader calls.  The library functions
(`ConvertToDeviceZ`, `InterleavedGradientNoise`, `GetTanHalfFieldOfView`,
`normalize`) are not part of this repository, so they are abstract here. -/
structure ShaderEnv where
  View : ViewState
  LightPositionOrDirection : Float4
  getGBufferDataFromSceneTextures : Float2 → FGBufferData
  convertToDeviceZ : ℚ → ℚ
  interleavedGradientNoise : Float2 → ℕ → ℚ
  getTanHalfFieldOfView : Float2
  normalize3 : Float3 → Float3

/-- One recorded UAV write: either to `RWShadowFactors` (the output surface)
or to `testFactors` (the debug surface).  The scene textures are bound
read-only, so there is no constructor for writing them. -/
inductive ShaderWrite where
  | shadow (pix : ℕ × ℕ) (val : Float2)
  | test (pix : ℕ × ℕ) (val : Float2)
deriving DecidableEq, Repr

/-- Source: `NumSteps = 64` (the shader's fixed march bound). -/
def numSteps : ℕ := 64

/-- Source: `CompareTorelanceScale = 2.0` (source spelling kept). -/
def CompareTorelanceScale : ℚ := 2

/-- Source: `ScreenUV = (DispatchThreadId.xy + View.ViewRectMin.xy + .5f) *
View.BufferSizeAndInvSize.zw`. -/
def screenUV (env : ShaderEnv) (dtid : ℕ × ℕ) : Float2 :=
  ⟨((dtid.1 : ℚ) + env.View.ViewRectMin.x + 1/2) * env.View.BufferSizeAndInvSize.z,
   ((dtid.2 : ℚ) + env.View.ViewRectMin.y + 1/2) * env.View.BufferSizeAndInvSize.w⟩

/-- Source: `ScreenPosition = (ScreenUV - View.ScreenPositionScaleBias.wz) /
View.ScreenPositionScaleBias.xy`. -/
def screenPosition (env : ShaderEnv) (dtid : ℕ × ℕ) : Float2 :=
  ⟨((screenUV env dtid).x - env.View.ScreenPositionScaleBias.w) / env.View.ScreenPositionScaleBias.x,
   ((screenUV env dtid).y - env.View.ScreenPositionScaleBias.z) / env.View.ScreenPositionScaleBias.y⟩

/-- Source: `GBuffer = GetGBufferDataFromSceneTextures(ScreenUV)`. -/
def pixelGBuffer (env : ShaderEnv) (dtid : ℕ × ℕ) : FGBufferData :=
  env.getGBufferDataFromSceneTextures (screenUV env dtid)

/-- Source: `SceneDepth = GBuffer.Depth`. -/
def pixelSceneDepth (env : ShaderEnv) (dtid : ℕ × ℕ) : ℚ :=
  (pixelGBuffer env dtid).Depth

/-- Source: `PositionTranslatedWorld = mul(float4(ScreenPosition * SceneDepth,
SceneDepth, 1), View.ScreenToTranslatedWorld)`. -/
def positionTranslatedWorld (env : ShaderEnv) (dtid : ℕ × ℕ) : Float4 :=
  mulVM ⟨(screenPosition env dtid).x * pixelSceneDepth env dtid,
         (screenPosition env dtid).y * pixelSceneDepth env dtid,
         pixelSceneDepth env dtid, 1⟩
        env.View.ScreenToTranslatedWorld

/-- Source: `test = mul(float4(0, 0, PositionTranslatedWorld.z, 1.0),
View.TranslatedWorldToClip)` (first, dead, write to the output). -/
def testClip (env : ShaderEnv) (dtid : ℕ × ℕ) : Float4 :=
  mulVM ⟨0, 0, (positionTranslatedWorld env dtid).z, 1⟩ env.View.TranslatedWorldToClip

/-- Source: `LightDirection = -LightPositionOrDirection.xyz`: the fourth component is
never inspected. -/
def lightDirection (L : Float4) : Float3 := ⟨-L.x, -L.y, -L.z⟩

/-- Source: `NdotL = dot(N, LightDirection)`. -/
def pixelNdotL (env : ShaderEnv) (dtid : ℕ × ℕ) : ℚ :=
  dot3 (pixelGBuffer env dtid).WorldNormal (lightDirection env.LightPositionOrDirection)

/-- Source: `Dither = InterleavedGradientNoise(DispatchThreadId.xy + 0.5f,
View.StateFrameIndexMod8)`. -/
def dither (env : ShaderEnv) (dtid : ℕ × ℕ) : ℚ :=
  env.interleavedGradientNoise ⟨(dtid.1 : ℚ) + 1/2, (dtid.2 : ℚ) + 1/2⟩
    env.View.StateFrameIndexMod8

/-- Source: `RayLength = (TanViewFOV.y * SceneDepth) * contactShadowLength` with
`contactShadowLength = 1.0`. -/
def rayLength (env : ShaderEnv) (dtid : ℕ × ℕ) : ℚ :=
  env.getTanHalfFieldOfView.y * pixelSceneDepth env dtid * 1

/-- Source: `startClip = mul(PositionTranslatedWorld, View.TranslatedWorldToClip)`. -/
def startClip (env : ShaderEnv) (dtid : ℕ × ℕ) : Float4 :=
  mulVM (positionTranslatedWorld env dtid) env.View.TranslatedWorldToClip

/-- Source: `dirClip = mul(float4(LightDirection * RayLength, 0),
View.TranslatedWorldToClip)`. -/
def dirClip (env : ShaderEnv) (dtid : ℕ × ℕ) : Float4 :=
  mulVM ⟨(lightDirection env.LightPositionOrDirection).x * rayLength env dtid,
         (lightDirection env.LightPositionOrDirection).y * rayLength env dtid,
         (lightDirection env.LightPositionOrDirection).z * rayLength env dtid, 0⟩
        env.View.TranslatedWorldToClip

/-- Source: `endClip = startClip + dirClip`. -/
def endClip (env : ShaderEnv) (dtid : ℕ × ℕ) : Float4 :=
  addF4 (startClip env dtid) (dirClip env dtid)

/-- Source: `startScreen = startClip.xyz / startClip.w`. -/
def startScreen (env : ShaderEnv) (dtid : ℕ × ℕ) : Float3 :=
  ⟨(startClip env dtid).x / (startClip env dtid).w,
   (startClip env dtid).y / (startClip env dtid).w,
   (startClip env dtid).z / (startClip env dtid).w⟩

/-- Source: `endScreen = endClip.xyz / endClip.w`. -/
def endScreen (env : ShaderEnv) (dtid : ℕ × ℕ) : Float3 :=
  ⟨(endClip env dtid).x / (endClip env dtid).w,
   (endClip env dtid).y / (endClip env dtid).w,
   (endClip env dtid).z / (endClip env dtid).w⟩

/-- Source: `stepScreen = endScreen - startScreen`. -/
def stepScreen (env : ShaderEnv) (dtid : ℕ × ℕ) : Float3 :=
  ⟨(endScreen env dtid).x - (startScreen env dtid).x,
   (endScreen env dtid).y - (startScreen env dtid).y,
   (endScreen env dtid).z - (startScreen env dtid).z⟩

/-- Source: `startUVZ = float3(startScreen.xy * View.ScreenPositionScaleBias.xy +
View.ScreenPositionScaleBias.wz, startScreen.z)`. -/
def startUVZ (env : ShaderEnv) (dtid : ℕ × ℕ) : Float3 :=
  ⟨(startScreen env dtid).x * env.View.ScreenPositionScaleBias.x
      + env.View.ScreenPositionScaleBias.w,
   (startScreen env dtid).y * env.View.ScreenPositionScaleBias.y
      + env.View.ScreenPositionScaleBias.z,
   (startScreen env dtid).z⟩

/-- Source: `stepUVZ = float3(stepScreen.xy * View.ScreenPositionScaleBias.xy,
stepScreen.z)`. -/
def stepUVZ (env : ShaderEnv) (dtid : ℕ × ℕ) : Float3 :=
  ⟨(stepScreen env dtid).x * env.View.ScreenPositionScaleBias.x,
   (stepScreen env dtid).y * env.View.ScreenPositionScaleBias.y,
   (stepScreen env dtid).z⟩

/-- Source: `depthClip = startClip + mul(float4(0, 0, RayLength, 0), View.ViewToClip)`. -/
def depthClip (env : ShaderEnv) (dtid : ℕ × ℕ) : Float4 :=
  addF4 (startClip env dtid) (mulVM ⟨0, 0, rayLength env dtid, 0⟩ env.View.ViewToClip)

/-- Source: `depthScreen = depthClip.xyz / depthClip.w`. -/
def depthScreen (env : ShaderEnv) (dtid : ℕ × ℕ) : Float3 :=
  ⟨(depthClip env dtid).x / (depthClip env dtid).w,
   (depthClip env dtid).y / (depthClip env dtid).w,
   (depthClip env dtid).z / (depthClip env dtid).w⟩

/-- Source: `sampleTime = stepOffset * step + step` with `stepOffset = Dither - 0.5f`
and `step = 1.0 / NumSteps`. -/
def sampleTime0 (env : ShaderEnv) (dtid : ℕ × ℕ) : ℚ :=
  (dither env dtid - 1/2) * (1 / (numSteps : ℚ)) + 1 / (numSteps : ℚ)

/-- Source: `CompareTolerance = abs(depthScreen.z - startScreen.z) * step *
CompareTorelanceScale`, computed once before the march loop. -/
def compareTolerance (env : ShaderEnv) (dtid : ℕ × ℕ) : ℚ :=
  ratAbs ((depthScreen env dtid).z - (startScreen env dtid).z) * (1 / (numSteps : ℚ))
    * CompareTorelanceScale

/-- Source: `sampleUVZ = startUVZ + stepUVZ * sampleTime` at march parameter `t`. -/
def sampleUVZ (env : ShaderEnv) (dtid : ℕ × ℕ) (t : ℚ) : Float3 :=
  ⟨(startUVZ env dtid).x + (stepUVZ env dtid).x * t,
   (startUVZ env dtid).y + (stepUVZ env dtid).y * t,
   (startUVZ env dtid).z + (stepUVZ env dtid).z * t⟩

/-- The `xy` slice of `sampleUVZ`, i.e. the UV fed to the GBuffer fetch. -/
def sampleXY (env : ShaderEnv) (dtid : ℕ × ℕ) (t : ℚ) : Float2 :=
  ⟨(sampleUVZ env dtid t).x, (sampleUVZ env dtid t).y⟩

/-- Source: `sampleDepth = ConvertToDeviceZ(currentGBuffer.Depth)` at march time `t`. -/
def sampleDepthAt (env : ShaderEnv) (dtid : ℕ × ℕ) (t : ℚ) : ℚ :=
  env.convertToDeviceZ (env.getGBufferDataFromSceneTextures (sampleXY env dtid t)).Depth

/-- Source: `depthDiff = sampleUVZ.z - sampleDepth` at march time `t`. -/
def depthDiffAt (env : ShaderEnv) (dtid : ℕ × ℕ) (t : ℚ) : ℚ :=
  (sampleUVZ env dtid t).z - sampleDepthAt env dtid t

/-- Source: `selfOcclusion = abs(startUVZ.z - sampleDepth) < 1e-5` at march time `t`. -/
def selfOcclusionAt (env : ShaderEnv) (dtid : ℕ × ℕ) (t : ℚ) : Bool :=
  ratAbs ((startUVZ env dtid).z - sampleDepthAt env dtid t) < 1/100000

/-- The per-step hit test, source line 190:
`Hit = abs(depthDiff + CompareTolerance) < CompareTolerance && !selfOcclusion`. -/
def hitCondition (depthDiff CompareTolerance : ℚ) (selfOcclusion : Bool) : Bool :=
  (ratAbs (depthDiff + CompareTolerance) < CompareTolerance) && !selfOcclusion

/-- The hit test of the step at march time `t`. -/
def stepHitAt (env : ShaderEnv) (dtid : ℕ × ℕ) (t : ℚ) : Bool :=
  hitCondition (depthDiffAt env dtid t) (compareTolerance env dtid) (selfOcclusionAt env dtid t)

/-- Source: `all(0.0 < sampleUVZ.xy && sampleUVZ.xy < 1.0)`: strict screen-rectangle
test used both by the hit branch and the debug-path write. -/
def insideOpenUnit (p : Float2) : Bool :=
  (0 < p.x && p.x < 1) && (0 < p.y && p.y < 1)

/-- A step terminates the march (shadowed early-out, source line 201) iff the
hit test passes and the sample UV is strictly inside the screen. -/
def stepTerminates (env : ShaderEnv) (dtid : ℕ × ℕ) (t : ℚ) : Bool :=
  stepHitAt env dtid t && insideOpenUnit (sampleXY env dtid t)

/-- Source line 193: `abs(DispatchThreadId.x - 233) < 0.01 &&
abs(DispatchThreadId.y - 250) < 0.01`.  `DispatchThreadId` is `uint`, so the
subtraction wraps modulo `2^32`; for thread ids below `2^32` the comparison
holds exactly when the coordinates equal `(233, 250)`. -/
def isDebugPixel (dtid : ℕ × ℕ) : Bool :=
  ((((dtid.1 : ℤ) - 233) % 2^32 : ℤ) : ℚ) < 1/100
    && ((((dtid.2 : ℤ) - 250) % 2^32 : ℤ) : ℚ) < 1/100

/-- HLSL float-to-uint cast: round toward zero, negative values clamp to 0. -/
def uintOfRat (q : ℚ) : ℕ := (⌊q⌋).toNat

/-- Source: `samplePixelInt = uint2((sampleUVZ.xy * View.BufferSizeAndInvSize.xy) -
0.5 - View.ViewRectMin.xy)` (debug path, source lines 195-196). -/
def samplePixelInt (env : ShaderEnv) (dtid : ℕ × ℕ) (t : ℚ) : ℕ × ℕ :=
  (uintOfRat ((sampleUVZ env dtid t).x * env.View.BufferSizeAndInvSize.x - 1/2
      - env.View.ViewRectMin.x),
   uintOfRat ((sampleUVZ env dtid t).y * env.View.BufferSizeAndInvSize.y - 1/2
      - env.View.ViewRectMin.y))

/-- The `testFactors` writes one iteration performs (source lines 193-199):
nothing unless the invocation is the hard-coded debug pixel; for the debug
pixel, a write to its own `testFactors` slot, plus a write to the sampled
pixel's slot when the sample UV is strictly on-screen. -/
def debugWrites (env : ShaderEnv) (dtid : ℕ × ℕ) (t : ℚ) : List ShaderWrite :=
  if isDebugPixel dtid then
    ShaderWrite.test dtid ⟨1, 0⟩ ::
      (if insideOpenUnit (sampleXY env dtid t) then
        [ShaderWrite.test (samplePixelInt env dtid t) ⟨1, 0⟩]
      else [])
  else []

/-- The march loop (source lines 177-208), with the remaining iteration count
as fuel and `sampleTime` threaded exactly as in the source (`sampleTime +=
1.0 / NumSteps` at the end of each iteration).  Returns the writes the loop
issues in order, and whether it exited early on a hit. -/
def marchFrom (env : ShaderEnv) (dtid : ℕ × ℕ) : ℕ → ℚ → List ShaderWrite × Bool
  | 0, _ => ([], false)
  | fuel + 1, t =>
    let dbg := debugWrites env dtid t
    if stepTerminates env dtid t then
      (dbg ++ [ShaderWrite.shadow dtid ⟨0, pixelSceneDepth env dtid⟩], true)
    else
      let rest := marchFrom env dtid fuel (t + 1 / (numSteps : ℚ))
      (dbg ++ rest.1, rest.2)

/-- Whether the march of this invocation declares a hit at some step. -/
def marchHit (env : ShaderEnv) (dtid : ℕ × ℕ) : Bool :=
  (marchFrom env dtid numSteps (sampleTime0 env dtid)).2

/-- The full invocation `Main_CS` as the ordered trace of its UAV writes.
`GroupThreadId` only feeds the dead local `ThreadIndex`; the view vector `V`
is also dead (it is bound below, as in the source, and never read). -/
def Main_CS (env : ShaderEnv) (dtid gtid : ℕ × ℕ) : List ShaderWrite :=
  let _ThreadIndex : ℕ := gtid.2 * 8 + gtid.1
  let SceneDepth : ℚ := pixelSceneDepth env dtid
  let _V : Float3 := env.normalize3
    ⟨env.View.TranslatedWorldCameraOrigin.x - (positionTranslatedWorld env dtid).x,
     env.View.TranslatedWorldCameraOrigin.y - (positionTranslatedWorld env dtid).y,
     env.View.TranslatedWorldCameraOrigin.z - (positionTranslatedWorld env dtid).z⟩
  let w1 := ShaderWrite.shadow dtid ⟨(testClip env dtid).z, (testClip env dtid).w⟩
  let w2 := ShaderWrite.shadow dtid ⟨0, 1⟩
  if pixelNdotL env dtid ≤ 0 then
    [w1, w2, ShaderWrite.shadow dtid ⟨0, SceneDepth⟩]
  else
    [w1, w2, ShaderWrite.shadow dtid ⟨1, SceneDepth⟩, ShaderWrite.test dtid ⟨0, 0⟩]
      ++ (marchFrom env dtid numSteps (sampleTime0 env dtid)).1

/-- Fold computing the value left in `RWShadowFactors[pix]` by a write trace,
starting from `init` (the value before the trace ran). -/
def shadowFold (pix : ℕ × ℕ) (init : Option Float2) (ws : List ShaderWrite) : Option Float2 :=
  ws.foldl
    (fun acc w =>
      match w with
      | ShaderWrite.shadow p v => if p = pix then some v else acc
      | ShaderWrite.test _ _ => acc)
    init

/-- The value a trace leaves in `RWShadowFactors[pix]`, `none` when the trace
never writes that slot. -/
def lastShadowWriteTo (ws : List ShaderWrite) (pix : ℕ × ℕ) : Option Float2 :=
  shadowFold pix none ws

/-- Returns `true` when every `RWShadowFactors` write in the trace targets `pix`. -/
def shadowWritesOnlyTo (ws : List ShaderWrite) (pix : ℕ × ℕ) : Bool :=
  ws.all fun w =>
    match w with
    | ShaderWrite.shadow p _ => decide (p = pix)
    | ShaderWrite.test _ _ => true

/-- The index (0-based step number) at which the march exits shadowed, `none`
when the fuel is exhausted with no hit; mirrors the loop of `marchFrom`. -/
def marchExitStepAux (env : ShaderEnv) (dtid : ℕ × ℕ) : ℕ → ℕ → ℚ → Option ℕ
  | 0, _, _ => none
  | fuel + 1, i, t =>
    if stepTerminates env dtid t then some i
    else marchExitStepAux env dtid fuel (i + 1) (t + 1 / (numSteps : ℚ))

/-- The step at which this invocation's march declares its hit, if any. -/
def marchExitStep (env : ShaderEnv) (dtid : ℕ × ℕ) : Option ℕ :=
  marchExitStepAux env dtid numSteps 0 (sampleTime0 env dtid)

/-- The list of `sampleTime` values the march loop actually evaluates, in
order; mirrors the loop of `marchFrom`. -/
def marchTimesAux (env : ShaderEnv) (dtid : ℕ × ℕ) : ℕ → ℚ → List ℚ
  | 0, _ => []
  | fuel + 1, t =>
    t :: (if stepTerminates env dtid t then []
          else marchTimesAux env dtid fuel (t + 1 / (numSteps : ℚ)))

/-- The `sampleTime` values of this invocation's march, in order. -/
def marchTimes (env : ShaderEnv) (dtid : ℕ × ℕ) : List ℚ :=
  marchTimesAux env dtid numSteps (sampleTime0 env dtid)

/-- The number of loop iterations this invocation's march executes. -/
def marchSteps (env : ShaderEnv) (dtid : ℕ × ℕ) : ℕ :=
  (marchTimes env dtid).length

/-! ### Host side (`FSceneRenderer::RenderScreenSpaceShadows`) -/

/-- Source: `FMath::DivideAndRoundUp(Dividend, Divisor) = (Dividend + Divisor - 1) /
Divisor` on C++ `int32`, whose division truncates toward zero. -/
def divideAndRoundUp (dividend divisor : ℤ) : ℤ :=
  (dividend + divisor - 1).tdiv divisor

/-- An `FIntVector` of thread-group counts. -/
structure DispatchArgs where
  x : ℤ
  y : ℤ
  z : ℤ
deriving DecidableEq, Repr

/-- Host dispatch decision (source lines 1819-1836 of the renderer file):
`GroupSizeX/Y = DivideAndRoundUp(Width/Height, 8)` over
`ShadowsTextureViewRect(0, 0, ScissorRect.Width(), ScissorRect.Height())`;
when either count is zero the function returns `false` without adding the
compute pass (`none` here; the dead store `GroupSizeX = 8` on that path does
not reach the dispatch), otherwise the pass is added with group counts
`(GroupSizeX, GroupSizeY, 1)`. -/
def renderScreenSpaceShadowsDispatch (scissorW scissorH : ℤ) : Option DispatchArgs :=
  let GroupSizeX := divideAndRoundUp scissorW 8
  let GroupSizeY := divideAndRoundUp scissorH 8
  if GroupSizeX = 0 ∨ GroupSizeY = 0 then none
  else some ⟨GroupSizeX, GroupSizeY, 1⟩

/-- Host-side shader parameter setup (source line 1815):
`LightPositionOrDirection = bIsDirectional ? FVector4(LightDirection, 0)
: FVector4(LightPosition, 1)`. -/
def hostLightPositionOrDirection (bIsDirectional : Bool) (dir pos : Float3) : Float4 :=
  if bIsDirectional then ⟨dir.x, dir.y, dir.z, 0⟩ else ⟨pos.x, pos.y, pos.z, 1⟩

/-! ### Derived notions and concrete evaluation environments -/

/-- The `sampleTime` value of the `k`-th loop iteration (0-based), as forced
by the loop's `sampleTime += 1.0 / NumSteps`. -/
def sampleTimeAt (env : ShaderEnv) (dtid : ℕ × ℕ) (k : ℕ) : ℚ :=
  sampleTime0 env dtid + (k : ℚ) * (1 / (numSteps : ℚ))

/-- The hit test as the specification words it: the signed difference falls
within the tolerance band symmetrically about zero.  Spec-side definition,
written for comparison with the source's `hitCondition`. -/
def hitConditionSpec (depthDiff CompareTolerance : ℚ) (selfOcclusion : Bool) : Bool :=
  (ratAbs depthDiff < CompareTolerance) && !selfOcclusion

/-- The identity 4x4 matrix, for concrete evaluation environments. -/
def idMat : Mat4 := ⟨⟨1, 0, 0, 0⟩, ⟨0, 1, 0, 0⟩, ⟨0, 0, 1, 0⟩, ⟨0, 0, 0, 1⟩⟩

/-- A concrete evaluation environment: identity view matrices, a flat GBuffer
of depth 1 with normal `(0,0,1)`, light parameter `L`, and a constant
device-Z conversion returning `D`.  At pixel `(0,0)` this yields
`startUVZ = (1/4, 1/4, 1)`, `stepUVZ = (0, 0, 1)`, `sampleTime0 = 1/64`,
`CompareTolerance = 1/32`, so step `i` samples
`sampleUVZ = (1/4, 1/4, 1 + (i+1)/64)` with `sampleDepth = D`. -/
def baseEnv (L : Float4) (D : ℚ) : ShaderEnv where
  View :=
    { BufferSizeAndInvSize := ⟨2, 2, 1/2, 1/2⟩
      ViewRectMin := ⟨0, 0⟩
      ScreenPositionScaleBias := ⟨1/2, -1/2, 1/2, 1/2⟩
      ScreenToTranslatedWorld := idMat
      TranslatedWorldToClip := idMat
      ViewToClip := idMat
      TranslatedWorldCameraOrigin := ⟨0, 0, 0⟩
      StateFrameIndexMod8 := 0 }
  LightPositionOrDirection := L
  getGBufferDataFromSceneTextures := fun _ => ⟨⟨0, 0, 1⟩, 1⟩
  convertToDeviceZ := fun _ => D
  interleavedGradientNoise := fun _ _ => 1/2
  getTanHalfFieldOfView := ⟨1, 1⟩
  normalize3 := fun v => v

/-- Environment for the C1 counterexample: at every step the signed depth
difference is `1/128 + i/64 > 0`, inside the symmetric band at step 0 but
never inside the code's one-sided band. -/
def envC1 : ShaderEnv := baseEnv ⟨0, 0, -1, 0⟩ (129/128)

/-- Environment whose pixel normal faces away from the light (`NdotL = -1`). -/
def envC2 : ShaderEnv := baseEnv ⟨0, 0, 1, 0⟩ 1

/-- Environment in which the march hits at step 0
(`depthDiff = -1/64 ∈ (-1/16, 0)`, no self-occlusion, UV on-screen). -/
def envC4 : ShaderEnv := baseEnv ⟨0, 0, -1, 0⟩ (33/32)

/-- Environment in which every sample is a self-intersection
(`sampleDepth = startUVZ.z = 1`). -/
def envC5 : ShaderEnv := baseEnv ⟨0, 0, -1, 0⟩ 1

/-- Source: `env` with the fourth component of `LightPositionOrDirection` replaced by
`w'` and everything else unchanged. -/
def setLightW (env : ShaderEnv) (w' : ℚ) : ShaderEnv :=
  { env with LightPositionOrDirection :=
      ⟨env.LightPositionOrDirection.x, env.LightPositionOrDirection.y,
       env.LightPositionOrDirection.z, w'⟩ }

/-! ### Helper lemmas about the march loop -/

theorem ratAbs_eq_abs (q : ℚ) : ratAbs q = |q| := by
  unfold ratAbs
  split
  · rw [abs_of_neg]; assumption
  · rw [abs_of_nonneg]; linarith [not_lt.mp (by assumption : ¬q < 0)]

theorem shadowFold_append (pix : ℕ × ℕ) (init : Option Float2) (a b : List ShaderWrite) :
    shadowFold pix init (a ++ b) = shadowFold pix (shadowFold pix init a) b := by
  simp [shadowFold, List.foldl_append]

theorem shadowFold_debugWrites (env : ShaderEnv) (dtid pix : ℕ × ℕ) (t : ℚ)
    (init : Option Float2) :
    shadowFold pix init (debugWrites env dtid t) = init := by
  unfold debugWrites
  split
  · split <;> simp [shadowFold]
  · simp [shadowFold]

theorem marchFrom_shadowFold (env : ShaderEnv) (dtid : ℕ × ℕ) (fuel : ℕ) :
    ∀ (t : ℚ) (init : Option Float2),
      shadowFold dtid init (marchFrom env dtid fuel t).1 =
        if (marchFrom env dtid fuel t).2 then some ⟨0, pixelSceneDepth env dtid⟩
        else init := by
  induction fuel with
  | zero => intro t init; simp [marchFrom, shadowFold]
  | succ n ih =>
    intro t init
    by_cases hterm : stepTerminates env dtid t
    · simp only [marchFrom, hterm, if_true, shadowFold_append, shadowFold_debugWrites]
      simp [shadowFold]
    · simp only [marchFrom, hterm, if_false, Bool.false_eq_true,
        shadowFold_append, shadowFold_debugWrites]
      exact ih _ init

theorem debugWrites_all_test (env : ShaderEnv) (dtid pix : ℕ × ℕ) (t : ℚ) :
    shadowWritesOnlyTo (debugWrites env dtid t) pix = true := by
  unfold debugWrites
  split
  · split <;> simp [shadowWritesOnlyTo]
  · simp [shadowWritesOnlyTo]

theorem marchFrom_writesOnly (env : ShaderEnv) (dtid : ℕ × ℕ) (fuel : ℕ) :
    ∀ t : ℚ, shadowWritesOnlyTo (marchFrom env dtid fuel t).1 dtid = true := by
  induction fuel with
  | zero => intro t; simp [marchFrom, shadowWritesOnlyTo]
  | succ n ih =>
    intro t
    have hdbg := debugWrites_all_test env dtid dtid t
    simp only [shadowWritesOnlyTo] at hdbg
    by_cases hterm : stepTerminates env dtid t
    · simp only [marchFrom, hterm, if_true, shadowWritesOnlyTo, List.all_append, hdbg,
        Bool.true_and, List.all_cons, List.all_nil]
      simp
    · have hrest := ih (t + 1 / (numSteps : ℚ))
      simp only [shadowWritesOnlyTo] at hrest
      simp only [marchFrom, hterm, if_false, Bool.false_eq_true, shadowWritesOnlyTo,
        List.all_append, hdbg, hrest, Bool.true_and]

theorem marchFrom_hit_iff_exit (env : ShaderEnv) (dtid : ℕ × ℕ) (fuel : ℕ) :
    ∀ (t : ℚ) (i : ℕ),
      (marchFrom env dtid fuel t).2 = (marchExitStepAux env dtid fuel i t).isSome := by
  induction fuel with
  | zero => intro t i; simp [marchFrom, marchExitStepAux]
  | succ n ih =>
    intro t i
    by_cases hterm : stepTerminates env dtid t
    · simp [marchFrom, marchExitStepAux, hterm]
    · simp only [marchFrom, marchExitStepAux, hterm, if_false, Bool.false_eq_true]
      exact ih _ (i + 1)

theorem marchExitStepAux_spec (env : ShaderEnv) (dtid : ℕ × ℕ) (fuel : ℕ) :
    ∀ (t : ℚ) (i j : ℕ), marchExitStepAux env dtid fuel i t = some j →
      i ≤ j ∧ j < i + fuel ∧
        stepTerminates env dtid (t + ((j - i : ℕ) : ℚ) * (1 / (numSteps : ℚ))) = true := by
  induction fuel with
  | zero => intro t i j h; simp [marchExitStepAux] at h
  | succ n ih =>
    intro t i j h
    by_cases hterm : stepTerminates env dtid t
    · simp only [marchExitStepAux, hterm, if_true, Option.some.injEq] at h
      subst h
      refine ⟨le_refl _, by omega, ?_⟩
      simpa using hterm
    · simp only [marchExitStepAux, hterm, if_false, Bool.false_eq_true] at h
      obtain ⟨h1, h2, h3⟩ := ih _ (i + 1) j h
      refine ⟨by omega, by omega, ?_⟩
      have hcast : ((j - i : ℕ) : ℚ) = ((j - (i + 1) : ℕ) : ℚ) + 1 := by
        have : j - i = (j - (i + 1)) + 1 := by omega
        rw [this]; push_cast; ring
      rw [hcast]
      convert h3 using 2
      ring

theorem marchTimesAux_map (env : ShaderEnv) (dtid : ℕ × ℕ) (fuel : ℕ) :
    ∀ t : ℚ, ∃ n : ℕ, n ≤ fuel ∧
      marchTimesAux env dtid fuel t =
        (List.range n).map (fun k : ℕ => t + (k : ℚ) * (1 / (numSteps : ℚ))) := by
  induction fuel with
  | zero => intro t; exact ⟨0, le_refl _, by simp [marchTimesAux]⟩
  | succ m ih =>
    intro t
    by_cases hterm : stepTerminates env dtid t
    · refine ⟨1, by omega, ?_⟩
      simp [marchTimesAux, hterm, List.range_succ]
    · obtain ⟨n, hn, heq⟩ := ih (t + 1 / (numSteps : ℚ))
      refine ⟨n + 1, by omega, ?_⟩
      simp only [marchTimesAux, hterm, if_false, Bool.false_eq_true, heq]
      rw [List.range_succ_eq_map]
      simp only [List.map_cons, List.map_map]
      refine List.cons_eq_cons.mpr ⟨by push_cast; ring, ?_⟩
      apply List.map_congr_left
      intro k _
      simp only [Function.comp_apply]
      push_cast; ring

/-- Characterization of the value each invocation leaves in its own slot of
`RWShadowFactors`: channel 0 is 0 on backface rejection or a march hit and 1
when the 64 steps are exhausted without a hit; channel 1 is always the
pixel's scene depth. -/
theorem Main_CS_final_value (env : ShaderEnv) (dtid gtid : ℕ × ℕ) :
    lastShadowWriteTo (Main_CS env dtid gtid) dtid =
      some ⟨if pixelNdotL env dtid ≤ 0 then 0 else if marchHit env dtid then 0 else 1,
            pixelSceneDepth env dtid⟩ := by
  by_cases h : pixelNdotL env dtid ≤ 0
  · simp [Main_CS, lastShadowWriteTo, h, shadowFold]
  · simp only [Main_CS, lastShadowWriteTo, h, if_false]
    rw [show (([ShaderWrite.shadow dtid ⟨(testClip env dtid).z, (testClip env dtid).w⟩,
          ShaderWrite.shadow dtid ⟨0, 1⟩,
          ShaderWrite.shadow dtid ⟨1, pixelSceneDepth env dtid⟩,
          ShaderWrite.test dtid ⟨0, 0⟩] : List ShaderWrite)
            ++ (marchFrom env dtid numSteps (sampleTime0 env dtid)).1)
        = _ from rfl,
      shadowFold_append, marchFrom_shadowFold]
    have hpre : shadowFold dtid none
        [ShaderWrite.shadow dtid ⟨(testClip env dtid).z, (testClip env dtid).w⟩,
         ShaderWrite.shadow dtid ⟨0, 1⟩,
         ShaderWrite.shadow dtid ⟨1, pixelSceneDepth env dtid⟩,
         ShaderWrite.test dtid ⟨0, 0⟩] = some ⟨1, pixelSceneDepth env dtid⟩ := by
      simp [shadowFold]
    rw [hpre]
    cases hm : marchHit env dtid with
    | true => simp only [marchHit] at hm; simp [hm]
    | false => simp only [marchHit] at hm; simp [hm]

/-- Every `RWShadowFactors` write an invocation performs targets its own
pixel. -/
theorem Main_CS_writesOnly (env : ShaderEnv) (dtid gtid : ℕ × ℕ) :
    shadowWritesOnlyTo (Main_CS env dtid gtid) dtid = true := by
  by_cases h : pixelNdotL env dtid ≤ 0
  · simp [Main_CS, h, shadowWritesOnlyTo]
  · have hm := marchFrom_writesOnly env dtid numSteps (sampleTime0 env dtid)
    simp only [shadowWritesOnlyTo] at hm ⊢
    simp [Main_CS, h, List.all_append, hm]

theorem marchFrom_w_irrel (env : ShaderEnv) (dtid : ℕ × ℕ) (w' : ℚ) (fuel : ℕ) :
    ∀ t : ℚ, marchFrom (setLightW env w') dtid fuel t = marchFrom env dtid fuel t := by
  induction fuel with
  | zero => intro t; rfl
  | succ n ih =>
    intro t
    have h1 : stepTerminates (setLightW env w') dtid t = stepTerminates env dtid t := rfl
    have h2 : debugWrites (setLightW env w') dtid t = debugWrites env dtid t := rfl
    have h3 : pixelSceneDepth (setLightW env w') dtid = pixelSceneDepth env dtid := rfl
    simp only [marchFrom, h1, h2, h3, ih]

/-- A whole invocation is unchanged when only the fourth component of
`LightPositionOrDirection` changes: the shader never inspects it. -/
theorem Main_CS_w_irrel (env : ShaderEnv) (dtid gtid : ℕ × ℕ) (w' : ℚ) :
    Main_CS (setLightW env w') dtid gtid = Main_CS env dtid gtid := by
  have h1 : pixelNdotL (setLightW env w') dtid = pixelNdotL env dtid := rfl
  have h2 : pixelSceneDepth (setLightW env w') dtid = pixelSceneDepth env dtid := rfl
  have h3 : testClip (setLightW env w') dtid = testClip env dtid := rfl
  have h4 : sampleTime0 (setLightW env w') dtid = sampleTime0 env dtid := rfl
  simp only [Main_CS, h1, h2, h3, h4, marchFrom_w_irrel]

/-! ### Claim theorems -/

/-- C1 (counterexample): the claim that a hit is declared at a step exactly
when the signed depth difference lies within the tolerance band symmetrically
about zero fails on the code.  In `envC1` at step 0, the signed difference is
`1/128`, inside the symmetric band of half-width `CompareTolerance = 1/32`
and not a self-intersection, so the claim's test (`hitConditionSpec`) declares
a hit; the code's test declares none, the march never hits, and the invocation
ends unshadowed with `(1, SceneDepth)`. -/
theorem C1_symmetric_band_counterexample :
    depthDiffAt envC1 (0, 0) (sampleTimeAt envC1 (0, 0) 0) = 1/128 ∧
    compareTolerance envC1 (0, 0) = 1/32 ∧
    hitConditionSpec (depthDiffAt envC1 (0, 0) (sampleTimeAt envC1 (0, 0) 0))
      (compareTolerance envC1 (0, 0))
      (selfOcclusionAt envC1 (0, 0) (sampleTimeAt envC1 (0, 0) 0)) = true ∧
    stepHitAt envC1 (0, 0) (sampleTimeAt envC1 (0, 0) 0) = false ∧
    marchHit envC1 (0, 0) = false ∧
    lastShadowWriteTo (Main_CS envC1 (0, 0) (0, 0)) (0, 0) = some ⟨1, 1⟩ := by
  with_unfolding_all decide

/-- C1 (amended): in the `Main_CS` ray march a hit is declared at a step
exactly when the signed difference `depthDiff` satisfies
`abs(depthDiff + CompareTolerance) < CompareTolerance`, i.e. lies in the
one-sided band `(-2 * CompareTolerance, 0)` below zero, and the sample is not
a self-intersection; the test is not symmetric about zero difference. -/
theorem C1_hit_one_sided_band (env : ShaderEnv) (dtid : ℕ × ℕ) (t : ℚ) :
    stepHitAt env dtid t = true ↔
      -(2 * compareTolerance env dtid) < depthDiffAt env dtid t ∧
        depthDiffAt env dtid t < 0 ∧ selfOcclusionAt env dtid t = false := by
  unfold stepHitAt hitCondition
  rw [ratAbs_eq_abs]
  simp only [Bool.and_eq_true, decide_eq_true_eq, Bool.not_eq_true', abs_lt]
  constructor
  · rintro ⟨⟨h1, h2⟩, h3⟩
    exact ⟨by linarith, by linarith, h3⟩
  · rintro ⟨h1, h2, h3⟩
    exact ⟨⟨by linarith, by linarith⟩, h3⟩

/-- C2: whenever `dot(N, LightDirection) ≤ 0`, the invocation writes the
fully-shadowed value `(0, SceneDepth)` as its last output write and returns
before the march loop (the trace is exactly the two early writes followed by
the backface write), and the whole trace is unchanged under any change of the
depth/normal buffer away from the pixel's own `ScreenUV` sample. -/
theorem C2_backface_early_exit (env : ShaderEnv) (dtid gtid : ℕ × ℕ)
    (h : pixelNdotL env dtid ≤ 0) :
    Main_CS env dtid gtid =
      [ShaderWrite.shadow dtid ⟨(testClip env dtid).z, (testClip env dtid).w⟩,
       ShaderWrite.shadow dtid ⟨0, 1⟩,
       ShaderWrite.shadow dtid ⟨0, pixelSceneDepth env dtid⟩] ∧
    lastShadowWriteTo (Main_CS env dtid gtid) dtid =
      some ⟨0, pixelSceneDepth env dtid⟩ ∧
    ∀ g2 : Float2 → FGBufferData,
      g2 (screenUV env dtid) = env.getGBufferDataFromSceneTextures (screenUV env dtid) →
      Main_CS { env with getGBufferDataFromSceneTextures := g2 } dtid gtid
        = Main_CS env dtid gtid := by
  have htrace : Main_CS env dtid gtid =
      [ShaderWrite.shadow dtid ⟨(testClip env dtid).z, (testClip env dtid).w⟩,
       ShaderWrite.shadow dtid ⟨0, 1⟩,
       ShaderWrite.shadow dtid ⟨0, pixelSceneDepth env dtid⟩] := by
    simp [Main_CS, h]
  refine ⟨htrace, ?_, ?_⟩
  · rw [htrace]; simp [lastShadowWriteTo, shadowFold]
  · intro g2 hg2
    have hGB : pixelGBuffer { env with getGBufferDataFromSceneTextures := g2 } dtid
        = pixelGBuffer env dtid := by
      unfold pixelGBuffer
      exact hg2
    have hSD : pixelSceneDepth { env with getGBufferDataFromSceneTextures := g2 } dtid
        = pixelSceneDepth env dtid := by
      unfold pixelSceneDepth; rw [hGB]
    have hN : pixelNdotL { env with getGBufferDataFromSceneTextures := g2 } dtid
        = pixelNdotL env dtid := by
      unfold pixelNdotL; rw [hGB]
    have hTC : testClip { env with getGBufferDataFromSceneTextures := g2 } dtid
        = testClip env dtid := by
      unfold testClip positionTranslatedWorld
      rw [hSD]
      rfl
    have h2 : pixelNdotL { env with getGBufferDataFromSceneTextures := g2 } dtid ≤ 0 := by
      rw [hN]; exact h
    have htrace2 : Main_CS { env with getGBufferDataFromSceneTextures := g2 } dtid gtid =
        [ShaderWrite.shadow dtid
           ⟨(testClip { env with getGBufferDataFromSceneTextures := g2 } dtid).z,
            (testClip { env with getGBufferDataFromSceneTextures := g2 } dtid).w⟩,
         ShaderWrite.shadow dtid ⟨0, 1⟩,
         ShaderWrite.shadow dtid
           ⟨0, pixelSceneDepth { env with getGBufferDataFromSceneTextures := g2 } dtid⟩] := by
      simp [Main_CS, h2]
    rw [htrace2, htrace, hTC, hSD]

/-- C2 witness: in `envC2` the normal faces away from the light and the final
output is the fully-shadowed value. -/
theorem C2_backface_early_exit_witness :
    pixelNdotL envC2 (0, 0) ≤ 0 ∧
    lastShadowWriteTo (Main_CS envC2 (0, 0) (0, 0)) (0, 0) = some ⟨0, 1⟩ := by
  refine ⟨by with_unfolding_all decide, ?_⟩
  have h := (C2_backface_early_exit envC2 (0, 0) (0, 0)
    (by with_unfolding_all decide)).2.1
  rw [h]
  with_unfolding_all decide

/-- C3: the value each invocation finally leaves in its own
`RWShadowFactors` slot has channel 0 equal to 0 (backface rejection or a
tolerance hit) or 1 (the 64 steps exhausted with no hit) and channel 1 equal
to the pixel's scene depth; this holds for every environment, so the
intermediate writes (`(test.z, test.w)`, `(0, 1)` and the pre-loop
`(1, SceneDepth)`) never survive to the end of a path they do not end. -/
theorem C3_final_output_value (env : ShaderEnv) (dtid gtid : ℕ × ℕ) :
    lastShadowWriteTo (Main_CS env dtid gtid) dtid =
      some ⟨if pixelNdotL env dtid ≤ 0 then 0 else if marchHit env dtid then 0 else 1,
            pixelSceneDepth env dtid⟩ ∧
    (lastShadowWriteTo (Main_CS env dtid gtid) dtid
        = some ⟨0, pixelSceneDepth env dtid⟩ ∨
     lastShadowWriteTo (Main_CS env dtid gtid) dtid
        = some ⟨1, pixelSceneDepth env dtid⟩) := by
  refine ⟨Main_CS_final_value env dtid gtid, ?_⟩
  rw [Main_CS_final_value]
  split_ifs
  · left; rfl
  · left; rfl
  · right; rfl

/-- C4: the march can only terminate a pixel as shadowed at a step whose
sample UV is strictly inside `(0,1)` in both axes: if the march exits at step
`i` then that step's hit test passed and its UV was strictly on-screen.  An
off-screen step never causes the shadowed write, whatever its depth
comparison says. -/
theorem C4_hit_requires_onscreen (env : ShaderEnv) (dtid : ℕ × ℕ) (i : ℕ)
    (h : marchExitStep env dtid = some i) :
    i < numSteps ∧
    stepHitAt env dtid (sampleTimeAt env dtid i) = true ∧
    insideOpenUnit (sampleXY env dtid (sampleTimeAt env dtid i)) = true := by
  obtain ⟨h0, hlt, hterm⟩ :=
    marchExitStepAux_spec env dtid numSteps (sampleTime0 env dtid) 0 i h
  simp only [Nat.sub_zero] at hterm
  unfold stepTerminates at hterm
  rw [Bool.and_eq_true] at hterm
  exact ⟨by omega, hterm.1, hterm.2⟩

/-- C4 witness: in `envC4` the march exits shadowed at step 0 and that step's
sample UV is strictly on-screen. -/
theorem C4_hit_requires_onscreen_witness :
    marchExitStep envC4 (0, 0) = some 0 ∧
    insideOpenUnit (sampleXY envC4 (0, 0) (sampleTimeAt envC4 (0, 0) 0)) = true :=
  ⟨by with_unfolding_all decide,
   (C4_hit_requires_onscreen envC4 (0, 0) 0 (by with_unfolding_all decide)).2.2⟩

/-- C5: whenever the sampled buffer depth converted to device Z is within the
absolute epsilon `1e-5` of the ray's starting depth `startUVZ.z`, the
`selfOcclusion` flag is set and the step's hit test is suppressed, for every
environment (hence for every depth-tolerance configuration). -/
theorem C5_self_intersection_immunity (env : ShaderEnv) (dtid : ℕ × ℕ) (t : ℚ)
    (h : ratAbs ((startUVZ env dtid).z - sampleDepthAt env dtid t) < 1/100000) :
    selfOcclusionAt env dtid t = true ∧ stepHitAt env dtid t = false := by
  have hs : selfOcclusionAt env dtid t = true := by
    unfold selfOcclusionAt
    exact decide_eq_true h
  refine ⟨hs, ?_⟩
  unfold stepHitAt
  rw [hs]
  simp [hitCondition]

/-- C5 witness: in `envC5` the first sample reads back the ray's own starting
depth and is rejected as a self-intersection. -/
theorem C5_self_intersection_immunity_witness :
    ratAbs ((startUVZ envC5 (0, 0)).z - sampleDepthAt envC5 (0, 0) (1/64)) < 1/100000 ∧
    stepHitAt envC5 (0, 0) (1/64) = false :=
  ⟨by with_unfolding_all decide,
   (C5_self_intersection_immunity envC5 (0, 0) (1/64)
     (by with_unfolding_all decide)).2⟩

/-- C6: the depth-comparison tolerance equals the absolute screen-space depth
range spanned by the full ray (`abs(depthScreen.z - startScreen.z)`) times
one step's fraction of the ray (`1/NumSteps` with `NumSteps = 64`) times
`CompareTorelanceScale = 2`; it is computed from pre-loop values only, and
every step's hit test uses this same per-invocation constant. -/
theorem C6_adaptive_tolerance (env : ShaderEnv) (dtid : ℕ × ℕ) :
    compareTolerance env dtid =
      |(depthScreen env dtid).z - (startScreen env dtid).z| * (1 / (numSteps : ℚ))
        * CompareTorelanceScale ∧
    CompareTorelanceScale = 2 ∧ numSteps = 64 ∧
    ∀ t : ℚ, stepHitAt env dtid t =
      hitCondition (depthDiffAt env dtid t) (compareTolerance env dtid)
        (selfOcclusionAt env dtid t) := by
  refine ⟨?_, rfl, rfl, fun _ => rfl⟩
  unfold compareTolerance
  rw [ratAbs_eq_abs]

/-- C7: an invocation never writes the depth/normal buffer (the embedding's
write trace has constructors only for the two UAV surfaces), every
`RWShadowFactors` write it performs targets its own pixel `dtid`, and it
always leaves a well-defined final value there — one effective write, never
touching another pixel's output slot. -/
theorem C7_per_pixel_isolation (env : ShaderEnv) (dtid gtid : ℕ × ℕ) :
    shadowWritesOnlyTo (Main_CS env dtid gtid) dtid = true ∧
    (lastShadowWriteTo (Main_CS env dtid gtid) dtid).isSome = true := by
  refine ⟨Main_CS_writesOnly env dtid gtid, ?_⟩
  rw [Main_CS_final_value]
  rfl

/-- C8: the host computes the thread-group counts as the scissor extents
divided by 8 rounding up (for nonnegative extents `DivideAndRoundUp` is
exactly the ceiling: `w ≤ 8 * count < w + 8`), and skips the dispatch
(returns `false`, adding no pass) precisely when either count is zero, which
for nonnegative extents happens exactly on a zero-sized extent. -/
theorem C8_zero_dispatch_skipped (w h : ℤ) (hw : 0 ≤ w) (hh : 0 ≤ h) :
    (renderScreenSpaceShadowsDispatch w h = none ↔ w = 0 ∨ h = 0) ∧
    (renderScreenSpaceShadowsDispatch w h ≠ none →
      renderScreenSpaceShadowsDispatch w h =
        some ⟨divideAndRoundUp w 8, divideAndRoundUp h 8, 1⟩) ∧
    w ≤ 8 * divideAndRoundUp w 8 ∧ 8 * divideAndRoundUp w 8 < w + 8 := by
  have key : ∀ a : ℤ, 0 ≤ a → divideAndRoundUp a 8 = (a + 7) / 8 := by
    intro a ha
    unfold divideAndRoundUp
    rw [show a + 8 - 1 = a + 7 by ring, Int.tdiv_eq_ediv (by omega) (by omega)]
  have hzero : ∀ a : ℤ, 0 ≤ a → (divideAndRoundUp a 8 = 0 ↔ a = 0) := by
    intro a ha
    rw [key a ha]
    omega
  refine ⟨?_, ?_, ?_, ?_⟩
  · simp only [renderScreenSpaceShadowsDispatch]
    split
    · next hc =>
      simp only [true_iff]
      rcases hc with hc | hc
      · exact Or.inl ((hzero w hw).mp hc)
      · exact Or.inr ((hzero h hh).mp hc)
    · next hc =>
      simp only [reduceCtorEq, false_iff]
      rintro (rfl | rfl)
      · exact hc (Or.inl ((hzero 0 le_rfl).mpr rfl))
      · exact hc (Or.inr ((hzero 0 le_rfl).mpr rfl))
  · intro hne
    simp only [renderScreenSpaceShadowsDispatch] at hne ⊢
    have hc : ¬(divideAndRoundUp w 8 = 0 ∨ divideAndRoundUp h 8 = 0) := by
      intro hc
      exact hne (if_pos hc)
    rw [if_neg hc]
  · rw [key w hw]; omega
  · rw [key w hw]; omega

/-- C8 witness: a zero-height scissor rect is skipped; a 17x9 rect dispatches
ceil(17/8) x ceil(9/8) = 3 x 2 groups. -/
theorem C8_zero_dispatch_skipped_witness :
    renderScreenSpaceShadowsDispatch 16 0 = none ∧
    renderScreenSpaceShadowsDispatch 17 9 = some ⟨3, 2, 1⟩ := by
  constructor
  · exact (C8_zero_dispatch_skipped 16 0 (by omega) (by omega)).1.mpr (Or.inr rfl)
  · have h := (C8_zero_dispatch_skipped 17 9 (by omega) (by omega)).2.1
      (by with_unfolding_all decide)
    rw [h]
    with_unfolding_all decide

/-- C9: every invocation's march terminates within the fixed bound: it
executes at most `NumSteps = 64` iterations, the `sampleTime` of the `k`-th
executed iteration is exactly `sampleTime0 + k * (1/NumSteps)` (each
iteration either exits on a hit or advances by `1/NumSteps`), and the march
declares a hit exactly when it exits at some step. -/
theorem C9_bounded_termination (env : ShaderEnv) (dtid : ℕ × ℕ) :
    marchSteps env dtid ≤ numSteps ∧ numSteps = 64 ∧
    marchTimes env dtid =
      (List.range (marchSteps env dtid)).map (sampleTimeAt env dtid) ∧
    marchHit env dtid = (marchExitStep env dtid).isSome := by
  obtain ⟨n, hn, heq⟩ := marchTimesAux_map env dtid numSteps (sampleTime0 env dtid)
  have hlen : marchSteps env dtid = n := by
    unfold marchSteps marchTimes
    rw [heq, List.length_map, List.length_range]
  refine ⟨by rw [hlen]; exact hn, rfl, ?_, ?_⟩
  · unfold marchTimes
    rw [heq, hlen]
    apply List.map_congr_left
    intro k _
    rfl
  · exact marchFrom_hit_iff_exit env dtid numSteps (sampleTime0 env dtid) 0

/-- C10: the shader computes the march direction as the negation of
`LightPositionOrDirection.xyz` unconditionally — a whole invocation is
invariant under any change of the fourth component — and since the host packs
`(position, 1)` for a non-directional light, a local light is marched along
the negated world position of the light (and a directional light along its
negated direction vector). -/
theorem C10_local_light_negated_position (env : ShaderEnv) (dtid gtid : ℕ × ℕ)
    (w' : ℚ) (dir pos : Float3) :
    Main_CS (setLightW env w') dtid gtid = Main_CS env dtid gtid ∧
    lightDirection (hostLightPositionOrDirection false dir pos)
      = ⟨-pos.x, -pos.y, -pos.z⟩ ∧
    lightDirection (hostLightPositionOrDirection true dir pos)
      = ⟨-dir.x, -dir.y, -dir.z⟩ ∧
    dirClip env dtid =
      mulVM ⟨(lightDirection env.LightPositionOrDirection).x * rayLength env dtid,
             (lightDirection env.LightPositionOrDirection).y * rayLength env dtid,
             (lightDirection env.LightPositionOrDirection).z * rayLength env dtid, 0⟩
            env.View.TranslatedWorldToClip :=
  ⟨Main_CS_w_irrel env dtid gtid w', rfl, rfl, rfl⟩

end ScreenSpaceShadows
